import Mathlib

set_option maxHeartbeats 1000000

/-!
Shallow embedding of the dialog-routing core of the azure-intelligent-support-bot
repository (src/index.js).  JavaScript strings are modeled as lists of characters
(`JStr`); the String.prototype methods used by the source map to list operations:
`trim` drops whitespace on both ends, `toLowerCase` maps `Char.toLower` (the same
basic-latin approximation JavaScript applies to ASCII input), `includes` is
substring containment, `slice(0, n)` is `List.take n`, `startsWith` is a prefix
test, and `Array.prototype.join(sep)` is `List.intercalate`.  Reply strings are
transcribed from the source with plain ASCII in place of the source's emoji and
typographic punctuation; no theorem below inspects those characters.
-/

/-- JavaScript string, modeled as a list of characters. -/
abbrev JStr := List Char

/-- Literal notation helper: a Lean string literal as a `JStr`. -/
def js (s : String) : JStr := s.toList

/-- JavaScript `String.prototype.trim`: drop whitespace from both ends.
Embeds `safeTrim` from src/index.js (which coerces null/undefined to ""). -/
def jsTrim (s : JStr) : JStr :=
  (s.dropWhile Char.isWhitespace).rdropWhile Char.isWhitespace

/-- JavaScript `String.prototype.toLowerCase` on basic-latin text. -/
def jsToLower (s : JStr) : JStr := s.map Char.toLower

/-- src/index.js `safeTrim(s)`: `(s || "").toString().trim()`. -/
def safeTrim (s : JStr) : JStr := jsTrim s

/-- src/index.js `lower(s)`: `safeTrim(s).toLowerCase()`. -/
def lower (s : JStr) : JStr := jsToLower (safeTrim s)

/-- JavaScript `s.includes(pat)`: substring containment. -/
def includes (s pat : JStr) : Bool :=
  if pat.isPrefixOf s then true
  else
    match s with
    | [] => false
    | _ :: tl => includes tl pat

/-- src/index.js `containsAny(text, words)`:
`words.some((w) => lower(text).includes(w))`. -/
def containsAny (text : JStr) (words : List JStr) : Bool :=
  words.any (fun w => includes (lower text) w)

/-- src/index.js `uniqPush(arr, value)`: skip falsy (empty) values and exact
duplicates, otherwise push at the end.  The source mutates `arr`; the embedding
returns the new array. -/
def uniqPush (arr : List JStr) (value : JStr) : List JStr :=
  if value = [] then arr
  else if value ∈ arr then arr
  else arr ++ [value]

/-! ### Issue classification (src/index.js `classifyIssue`, lines 189-213) -/

/-- Keywords of the network rule group matched against the text. -/
def networkWords : List JStr :=
  [js "wifi", js "wi-fi", js "internet", js "router", js "dns", js "ip",
   js "ethernet", js "network"]

/-- Keywords compared for exact equality with the lower-cased key phrases in
the network rule group. -/
def networkKPWords : List JStr :=
  [js "wifi", js "router", js "dns", js "ip", js "internet", js "network"]

def windowsWords : List JStr :=
  [js "windows", js "blue screen", js "bsod", js "driver", js "update",
   js "device manager"]

def accountWords : List JStr :=
  [js "login", js "password", js "account", js "mfa", js "2fa", js "locked",
   js "sign in", js "signin"]

def appWords : List JStr :=
  [js "app", js "crash", js "error", js "bug", js "install", js "uninstall",
   js "permission"]

/-- src/index.js `classifyIssue(text, keyPhrases)`. -/
def classifyIssue (text : JStr) (keyPhrases : List JStr) : JStr :=
  let t := lower text
  let kp := keyPhrases.map lower
  if containsAny t networkWords || kp.any (fun x => x ∈ networkKPWords) then
    js "network"
  else if containsAny t windowsWords then js "windows"
  else if containsAny t accountWords then js "account"
  else if containsAny t appWords then js "app"
  else js "triage"

/-! ### Flow intros, help text, mode command -/

def triageIntro : JStr :=
  js "Quick triage: tell me (1) what you are trying to do, (2) what happened instead, (3) exact error text if any."

/-- src/index.js `flowIntro(mode)`: `map[mode] || map.triage`. -/
def flowIntro (mode : JStr) : JStr :=
  if mode = js "triage" then triageIntro
  else if mode = js "network" then
    js "Network mode: we will check connection + DNS quickly. First: are you on Wi-Fi or Ethernet?"
  else if mode = js "windows" then
    js "Windows mode: we will check updates/drivers + basic health. First: Windows 10 or 11? What changed recently?"
  else if mode = js "account" then
    js "Account mode: we will isolate login/MFA/lockout. First: Microsoft login, school SSO, or app login?"
  else if mode = js "app" then
    js "App mode: we will isolate crashes/errors. First: what app + version, and what is the exact error?"
  else triageIntro

/-- src/index.js `helpText()`. -/
def helpText : JStr :=
  List.intercalate (js "\n")
    [js "Tech Support Copilot commands:",
     js "- help : show commands",
     js "- start : begin guided troubleshooting",
     js "- reset : clear current session",
     js "- summary : generate a clean IT ticket",
     js "- mode network | windows | account | app | triage : force a mode",
     js "",
     js "Tip: Paste ONLY non-sensitive info. Redact secrets like ABCD****WXYZ."]

/-- The five mode names accepted by the `mode <name>` command. -/
def modeNames : List JStr :=
  [js "network", js "windows", js "account", js "app", js "triage"]

/-- src/index.js `parseModeCommand(text)`, lines 247-253. -/
def parseModeCommand (text : JStr) : Option JStr :=
  let t := lower text
  if (js "mode ").isPrefixOf t then
    let m := jsTrim (t.drop 5)
    if m ∈ modeNames then some m else none
  else none

/-! ### Session and ticket data model (src/index.js `getSession`/`resetSession`).
Timestamps (`createdAt`, `lastSeenAt`) are wall-clock bookkeeping used only by
the TTL sweep and are outside this embedding. -/

structure Ticket where
  issue : JStr
  device : JStr
  os : JStr
  app : JStr
  symptoms : List JStr
  whatTried : List JStr
  errors : List JStr
  urgency : JStr
deriving DecidableEq, Repr

/-- The fresh ticket installed by `getSession` and `resetSession`. -/
def emptyTicket : Ticket :=
  { issue := [], device := [], os := [], app := [],
    symptoms := [], whatTried := [], errors := [], urgency := js "normal" }

structure Session where
  mode : JStr
  step : Nat
  ticket : Ticket
deriving DecidableEq, Repr

/-- Default session state installed by `getSession` for an unseen id. -/
def freshSession : Session :=
  { mode := js "idle", step := 0, ticket := emptyTicket }

/-- src/index.js `resetSession(session)`, lines 129-142. -/
def resetSession (s : Session) : Session :=
  { s with mode := js "idle", step := 0, ticket := emptyTicket }

/-! ### Analysis results (src/index.js `analyzeLanguage`, lines 63-88).
Confidence scores are carried as already-rendered strings: their numeric
formatting (`toFixed`) is floating-point display logic no claim depends on. -/

structure ConfidenceScores where
  positive : JStr
  neutral : JStr
  negative : JStr
deriving DecidableEq, Repr

structure SentimentDoc where
  sentiment : JStr
  confidenceScores : Option ConfidenceScores
deriving DecidableEq, Repr

structure KeyPhraseDoc where
  keyPhrases : List JStr
deriving DecidableEq, Repr

structure PrimaryLanguage where
  iso6391Name : JStr
deriving DecidableEq, Repr

structure LanguageDoc where
  primaryLanguage : Option PrimaryLanguage
deriving DecidableEq, Repr

structure PiiEntity where
  category : JStr
deriving DecidableEq, Repr

structure PiiDoc where
  entities : List PiiEntity
deriving DecidableEq, Repr

structure RawErrors where
  sentiment : Option JStr
  keyphrases : Option JStr
  language : Option JStr
  pii : Option JStr
deriving DecidableEq, Repr

structure AnalysisResult where
  sentiment : Option SentimentDoc
  keyphrases : Option KeyPhraseDoc
  language : Option LanguageDoc
  pii : Option PiiDoc
  rawErrors : RawErrors
deriving DecidableEq, Repr

/-- src/index.js `pick(res)`: `res.status === "fulfilled" ? res.value?.[0] : null`.
A settled promise outcome is an `Except` value: `.ok` is fulfilled with the
document list, `.error` carries the rejection reason. -/
def pick {α : Type} : Except JStr (List α) → Option α
  | .ok v => v.head?
  | .error _ => none

/-- The `rawErrors` entry for one settled task:
`res.status === "rejected" ? res.reason : null`. -/
def reasonOf {α : Type} : Except JStr (List α) → Option JStr
  | .ok _ => none
  | .error e => some e

/-- src/index.js `analyzeLanguage(userText)` result assembly, lines 67-87.
`Promise.allSettled` never rejects: the four sub-task outcomes arrive as four
independent settled values, here the four `Except` arguments. -/
def analyzeLanguage (sentimentRes : Except JStr (List SentimentDoc))
    (keyphraseRes : Except JStr (List KeyPhraseDoc))
    (langRes : Except JStr (List LanguageDoc))
    (piiRes : Except JStr (List PiiDoc)) : AnalysisResult :=
  { sentiment := pick sentimentRes
    keyphrases := pick keyphraseRes
    language := pick langRes
    pii := pick piiRes
    rawErrors :=
      { sentiment := reasonOf sentimentRes
        keyphrases := reasonOf keyphraseRes
        language := reasonOf langRes
        pii := reasonOf piiRes } }

/-! ### Reply formatting helpers -/

/-- JavaScript `a || b` on strings: empty is falsy. -/
def jsOr (v fallback : JStr) : JStr := if v = [] then fallback else v

/-- src/index.js `tonePrefix(sentimentDoc)`, lines 147-152. -/
def tonePrefixFn (sentimentDoc : Option SentimentDoc) : JStr :=
  let sentiment :=
    match sentimentDoc with
    | some d => jsOr d.sentiment (js "neutral")
    | none => js "neutral"
  if sentiment = js "negative" then js "I got you - we will fix this."
  else if sentiment = js "positive" then js "Nice - let us keep that momentum."
  else js "Alright - let us troubleshoot this step-by-step."

/-- src/index.js `formatConfidence(sentimentDoc)`, lines 154-160. -/
def formatConfidence (sentimentDoc : Option SentimentDoc) : JStr :=
  match sentimentDoc with
  | none => []
  | some d =>
    match d.confidenceScores with
    | none => []
    | some cs =>
      js " (pos " ++ cs.positive ++ js ", neu " ++ cs.neutral
        ++ js ", neg " ++ cs.negative ++ js ")"

/-- JavaScript `[...new Set(l)]`: order-preserving deduplication. -/
def jsSetDedup : List JStr → List JStr
  | [] => []
  | a :: l => a :: jsSetDedup (l.filter (fun b => b ≠ a))
termination_by l => l.length
decreasing_by
  simp only [List.length_cons]
  exact Nat.lt_succ_of_le (List.length_filter_le _ _)

/-- src/index.js `piiWarning(piiDoc)`, lines 162-169. -/
def piiWarning (piiDoc : Option PiiDoc) : Option JStr :=
  let entities := match piiDoc with | some d => d.entities | none => []
  if entities.length = 0 then none
  else
    let types :=
      (jsSetDedup ((entities.map (fun e => e.category)).filter (fun c => c ≠ []))).take 6
    some (js "Warning: I might be seeing sensitive info ("
      ++ List.intercalate (js ", ") types
      ++ js "). Please do not paste passwords, keys, full emails, card numbers, or tokens. Redact like: ABCD****WXYZ.")

/-- src/index.js `ticketSummary(ticket)`, lines 171-184. -/
def ticketSummary (ticket : Ticket) : JStr :=
  let lines : List JStr :=
    [js "----- TECH SUPPORT TICKET SUMMARY -----",
     js "Issue: " ++ jsOr ticket.issue (js "(not set)"),
     js "Device: " ++ jsOr ticket.device (js "(unknown)"),
     js "OS: " ++ jsOr ticket.os (js "(unknown)"),
     js "App: " ++ jsOr ticket.app (js "(n/a)"),
     js "Urgency: " ++ ticket.urgency]
    ++ (if ticket.symptoms ≠ [] then
          [js "Symptoms: " ++ List.intercalate (js " | ") ticket.symptoms] else [])
    ++ (if ticket.errors ≠ [] then
          [js "Errors: " ++ List.intercalate (js " | ") ticket.errors] else [])
    ++ (if ticket.whatTried ≠ [] then
          [js "Tried: " ++ List.intercalate (js " | ") ticket.whatTried] else [])
    ++ [js "--------------------------------------"]
  List.intercalate (js "\n") lines

/-! ### Dialog router (src/index.js `/api/messages` handler, lines 271-595).
The handler is modeled as a pure function of the current session, the raw
message text, and the outcome of the `analyzeLanguage` call: `none` means the
awaited call threw (the `catch` branch, lines 332-338), `some` carries its
result.  The returned pair is the new session state and the ordered list of
`sendActivity` reply texts of the turn. -/

/-- Apology sent from the `catch` branch when the analysis call throws. -/
def azureApology : JStr :=
  js "Warning: I could not reach Azure Language Service. Double-check LANGUAGE_ENDPOINT and LANGUAGE_KEY."

/-- The stored key-phrase summary line: `"keywords: " + topKP.join(", ")`. -/
def kwLine (topKP : List JStr) : JStr :=
  js "keywords: " ++ List.intercalate (js ", ") topKP


/-- The guided flows: everything after the idle auto-route block (lines
370-593).  The source is a chain of `if (session.mode === ...)` blocks whose
step branches each end in `return`; a step value with no matching branch falls
through to the final fallback reply.  `sentimentDoc` is `analysis.sentiment`,
consumed by the triage step-0 acknowledgment. -/
def guidedFlows (s : Session) (userText : JStr) (topKP : List JStr)
    (sentimentDoc : Option SentimentDoc) : Session × List JStr :=
  if s.mode = js "triage" ∧ s.step = 0 then
    ({ s with
        step := 1
        ticket := { s.ticket with issue := userText } },
     [tonePrefixFn sentimentDoc ++ js " Got it.",
      js "1) What device are you on? (Windows laptop / Mac / phone + model if possible)"])
  else if s.mode = js "triage" ∧ s.step = 1 then
    ({ s with
        step := 2
        ticket := { s.ticket with device := userText } },
     [js "2) What OS + version? (ex: Windows 11 / macOS / iOS / Android)"])
  else if s.mode = js "triage" ∧ s.step = 2 then
    ({ s with
        step := 3
        ticket := { s.ticket with os := userText } },
     [js "3) Paste the exact error text (redacted). If no error, describe what happens."])
  else if s.mode = js "triage" ∧ s.step = 3 then
    let errors := uniqPush s.ticket.errors userText
    let mode := classifyIssue (jsOr s.ticket.issue (js "") ++ js " " ++ userText) topKP
    ({ s with
        mode := mode
        step := 0
        ticket := { s.ticket with errors := errors } },
     [js "Perfect - switching to a focused mode:",
      js "Mode: " ++ mode,
      flowIntro mode])
  else if s.mode = js "network" ∧ s.step = 0 then
    ({ s with
        step := 1
        ticket := { s.ticket with issue := jsOr s.ticket.issue userText } },
     [js "Are you on Wi-Fi or Ethernet?"])
  else if s.mode = js "network" ∧ s.step = 1 then
    ({ s with
        step := 2
        ticket := { s.ticket with
          symptoms := uniqPush s.ticket.symptoms (js "connection: " ++ userText) } },
     [js "Quick checks:\nA) Can you open any website?\nB) Does it fail on ALL sites or only one?\nReply like: A=yes B=all"])
  else if s.mode = js "network" ∧ s.step = 2 then
    ({ s with
        step := 3
        ticket := { s.ticket with
          symptoms := uniqPush s.ticket.symptoms (js "basic check: " ++ userText) } },
     [js "Run ONE command (Windows) and paste output (redact if you want):\n1) ipconfig /all\n2) ping 8.8.8.8 -n 4\n3) nslookup google.com"])
  else if s.mode = js "network" ∧ s.step = 3 then
    let ticket := { s.ticket with
      whatTried := uniqPush s.ticket.whatTried (js "network diagnostics provided")
      errors := uniqPush s.ticket.errors (js "network output: " ++ userText.take 220) }
    let l := lower userText
    let diag : JStr :=
      if includes l (js "request timed out") || includes l (js "unreachable") then
        js "That looks like a connectivity path issue.\nTry:\n- Toggle Wi-Fi off/on\n- Reboot router\n- Forget network + reconnect\n- Test a phone hotspot (to isolate the network)"
      -- the first pattern below reads "server can't find" in the source; the
      -- apostrophe is elided in this transcription
      else if includes l (js "server cant find") || includes l (js "dns")
          || includes l (js "non-existent domain") then
        js "That looks like DNS.\nTry:\n- ipconfig /flushdns\n- Temporarily set DNS to 1.1.1.1 or 8.8.8.8\n- Restart your network adapter"
      else
        js "Thanks - I can work with that.\nNext: does it happen only on this device, or multiple devices on the same network?"
    ({ s with step := 4, ticket := ticket },
     [diag, js "Type `summary` anytime to generate a clean ticket for IT."])
  else if s.mode = js "network" then
    (s, [js "If you want, type `summary`, `reset`, or `mode triage` to restart."])
  else if s.mode = js "windows" ∧ s.step = 0 then
    ({ s with
        step := 1
        ticket := { s.ticket with issue := jsOr s.ticket.issue userText } },
     [js "What changed right before the issue? (update, new app, driver, new device)"])
  else if s.mode = js "windows" ∧ s.step = 1 then
    ({ s with
        step := 2
        ticket := { s.ticket with
          symptoms := uniqPush s.ticket.symptoms (js "recent change: " ++ userText) } },
     [js "Quick Windows checks:\n1) Settings -> Windows Update (any pending?)\n2) Run: sfc /scannow (Command Prompt as Admin)\nTell me the result messages."])
  else if s.mode = js "windows" ∧ s.step = 2 then
    ({ s with
        step := 3
        ticket := { s.ticket with
          whatTried := uniqPush s.ticket.whatTried (js "windows update/sfc suggested")
          errors := uniqPush s.ticket.errors userText } },
     [js "Next step options:\n- If it is an app crash: update/reinstall + run as admin\n- If it is BSOD: tell me the stop code + recent drivers\n- If it is slow: Task Manager (CPU/RAM/Disk) screenshot details",
      js "Want me to focus on `mode app` or stay on `mode windows`?"])
  else if s.mode = js "windows" then
    (s, [js "Type `summary` to generate a ticket, or send the exact stop code/error."])
  else if s.mode = js "account" ∧ s.step = 0 then
    ({ s with
        step := 1
        ticket := { s.ticket with issue := jsOr s.ticket.issue userText } },
     [js "Is it Microsoft login, school SSO, or app login?"])
  else if s.mode = js "account" ∧ s.step = 1 then
    ({ s with
        step := 2
        ticket := { s.ticket with
          symptoms := uniqPush s.ticket.symptoms (js "login type: " ++ userText) } },
     [js "What exactly happens?\n- wrong password\n- MFA loop\n- locked out\n- cannot sign in error\nPaste any error text (redacted)."])
  else if s.mode = js "account" ∧ s.step = 2 then
    ({ s with
        step := 3
        ticket := { s.ticket with errors := uniqPush s.ticket.errors userText } },
     [js "Common fixes:\n- Incognito/private window\n- Clear cookies for the domain\n- Confirm time/date auto-set\n- If MFA: re-register authenticator\nWhich did you already try?"])
  else if s.mode = js "account" ∧ s.step = 3 then
    ({ s with
        ticket := { s.ticket with whatTried := uniqPush s.ticket.whatTried userText } },
     [js "Got it. Type `summary` and you will have a clean ticket for IT/Helpdesk."])
  else if s.mode = js "app" ∧ s.step = 0 then
    ({ s with
        step := 1
        ticket := { s.ticket with issue := jsOr s.ticket.issue userText } },
     [js "What app + version? (example: Chrome 122, VSCode 1.86)"])
  else if s.mode = js "app" ∧ s.step = 1 then
    ({ s with step := 2, ticket := { s.ticket with app := userText } },
     [js "What is the exact error message? (redacted)"])
  else if s.mode = js "app" ∧ s.step = 2 then
    ({ s with
        step := 3
        ticket := { s.ticket with errors := uniqPush s.ticket.errors userText } },
     [js "Quick fixes (reply with letters):\nA) Restart app + reboot PC\nB) Update app\nC) Reinstall app\nD) Run as admin\nE) Check permissions/firewall\nExample: A,B,D"])
  else if s.mode = js "app" ∧ s.step = 3 then
    ({ s with
        step := 4
        ticket := { s.ticket with
          whatTried := uniqPush s.ticket.whatTried (js "app fixes tried: " ++ userText) } },
     [js "Nice. If it still fails, we narrow it down:\n- Only your account or all accounts?\n- Does it happen on another device?\n- Any logs? (Event Viewer / app logs)",
      js "Type `summary` when you want the final ticket."])
  else if s.mode = js "app" then
    (s, [js "Type `summary` or paste the latest result after trying those fixes."])
  else
    (s, [js "I am here. Type `start` to begin a guided flow or `help` for commands."])

/-- Lines 340-593: the part of the turn that runs once the analysis result is
available - PII warning, idle auto-route, keyword storage, guided flows. -/
def analysisPath (s : Session) (userText : JStr) (analysis : AnalysisResult) :
    Session × List JStr :=
  let piiPre : List JStr := match piiWarning analysis.pii with
    | some m => [m]
    | none => []
  let detectedLang := match analysis.language with
    | some d => match d.primaryLanguage with
      | some p => jsOr p.iso6391Name (js "unknown")
      | none => js "unknown"
    | none => js "unknown"
  let sentiment := match analysis.sentiment with
    | some d => jsOr d.sentiment (js "neutral")
    | none => js "neutral"
  let confidence := formatConfidence analysis.sentiment
  let keyPhrases := match analysis.keyphrases with
    | some d => d.keyPhrases
    | none => []
  let topKP := keyPhrases.take 6
  if s.mode = js "idle" then
    let mode := classifyIssue userText topKP
    let issue := jsOr s.ticket.issue (userText.take 180)
    let symptoms :=
      if topKP ≠ [] then uniqPush s.ticket.symptoms (kwLine topKP)
      else s.ticket.symptoms
    ({ mode := mode
       step := 0
       ticket := { s.ticket with issue := issue, symptoms := symptoms } },
     piiPre ++
      [tonePrefixFn analysis.sentiment ++ js " (lang: " ++ detectedLang
        ++ js ", sentiment: " ++ sentiment ++ confidence ++ js ")",
       flowIntro mode])
  else
    let symptoms1 :=
      if topKP ≠ [] then uniqPush s.ticket.symptoms (kwLine topKP)
      else s.ticket.symptoms
    let s1 := { s with ticket := { s.ticket with symptoms := symptoms1 } }
    let out := guidedFlows s1 userText topKP analysis.sentiment
    (out.1, piiPre ++ out.2)

/-- One full turn of the `/api/messages` handler (lines 271-595): empty-text
prompt, command interception, then analysis and the guided flows. -/
def processMessage (s : Session) (rawText : JStr)
    (analysisResult : Option AnalysisResult) : Session × List JStr :=
  let userText := safeTrim rawText
  if userText = [] then
    (s, [js "Send a message and I will help you troubleshoot."])
  else
    let t := lower userText
    if t = js "help" then (s, [helpText])
    else if t = js "reset" then
      (resetSession s, [js "Reset done. Type `start` to begin."])
    else if t = js "start" then
      let s2 := { s with mode := js "triage", step := 0 }
      (s2, [js "Starting tech support flow.", flowIntro s2.mode])
    else if t = js "summary" then
      (s, [js "Here is your ticket summary:",
           js "```text\n" ++ ticketSummary s.ticket ++ js "\n```"])
    else
      match parseModeCommand userText with
      | some forcedMode =>
        let s2 := { s with mode := forcedMode, step := 0 }
        (s2, [js "Mode set to: " ++ forcedMode, flowIntro s2.mode])
      | none =>
        match analysisResult with
        | none => (s, [azureApology])
        | some analysis => analysisPath s userText analysis

/-! ### Second revision of the router: `handleText` (src/index.js lines
843-981).  This revision serves both the web endpoint and the bot endpoint and
produces a single reply string per turn.  Its `classifyIssue`, `uniqPush`,
`parseModeCommand` and `ticketSummary` are verbatim duplicates of the first
revision and are shared; the texts that differ get their own definitions. -/

/-- Lines 809-819: `flowIntro` of the second revision. -/
def flowIntro2 (mode : JStr) : JStr :=
  if mode = js "triage" then
    js "Tell me this (short is fine):\n1) What you are trying to do\n2) What happens instead\n3) Exact error text (if any)"
  else if mode = js "network" then
    js "Network mode:\n1) Wi-Fi or Ethernet?\n2) Does ANY website open?\n3) Any error message?"
  else if mode = js "windows" then
    js "Windows mode:\n1) Windows 10 or 11?\n2) What changed recently?\n3) Any error/stop code?"
  else if mode = js "account" then
    js "Account mode:\n1) Microsoft login / School SSO / App login?\n2) What exactly happens?\n3) Error text (redacted)?"
  else if mode = js "app" then
    js "App mode:\n1) App name + version\n2) Exact error message\n3) What you already tried"
  else
    js "Tell me this (short is fine):\n1) What you are trying to do\n2) What happens instead\n3) Exact error text (if any)"

/-- Lines 821-832: `helpText` of the second revision. -/
def helpText2 : JStr :=
  List.intercalate (js "\n")
    [js "Commands:", js "- help", js "- start", js "- reset", js "- summary",
     js "- mode network | windows | account | app | triage",
     js "",
     js "Tip: Do not paste sensitive info. Redact secrets like ABCD****WXYZ."]

/-- Lines 757-762: `tonePrefix` of the second revision. -/
def tonePrefix2Fn (sentimentDoc : Option SentimentDoc) : JStr :=
  let sentiment :=
    match sentimentDoc with
    | some d => jsOr d.sentiment (js "neutral")
    | none => js "neutral"
  if sentiment = js "negative" then js "Got you. We will fix this."
  else if sentiment = js "positive" then js "Nice - let us keep it going."
  else js "Alright - let us troubleshoot step-by-step."

/-- Lines 764-771: `piiWarning` of the second revision. -/
def piiWarning2 (piiDoc : Option PiiDoc) : Option JStr :=
  let entities := match piiDoc with | some d => d.entities | none => []
  if entities.length = 0 then none
  else
    let types :=
      (jsSetDedup ((entities.map (fun e => e.category)).filter (fun c => c ≠ []))).take 6
    some (js "Quick heads-up: I might be seeing sensitive info ("
      ++ List.intercalate (js ", ") types
      ++ js "). Do not paste passwords/keys/cards/tokens. Redact like: ABCD****WXYZ.")

/-- Lines 843-981: `handleText(session, userText)` of the second revision,
modeled as a pure function of the session, the (already trimmed) user text and
the analysis result.  Returns the new session and the single reply string. -/
def handleText (s : Session) (userText : JStr) (analysis : AnalysisResult) :
    Session × JStr :=
  let t := lower userText
  if t = js "help" then (s, helpText2)
  else if t = js "reset" then
    (resetSession s, js "Reset done. Type `start` to begin.")
  else if t = js "start" then
    let s2 := { s with mode := js "triage", step := 0 }
    (s2, js "Starting tech support.\n\n" ++ flowIntro2 s2.mode)
  else if t = js "summary" then
    (s, js "```text\n" ++ ticketSummary s.ticket ++ js "\n```")
  else
    match parseModeCommand userText with
    | some forcedMode =>
      let s2 := { s with mode := forcedMode, step := 0 }
      (s2, js "Mode set to: " ++ forcedMode ++ js "\n\n" ++ flowIntro2 forcedMode)
    | none =>
      let piiPre : JStr := match piiWarning2 analysis.pii with
        | some m => m ++ js "\n\n"
        | none => []
      let keyPhrases := match analysis.keyphrases with
        | some d => d.keyPhrases
        | none => []
      let topKP := keyPhrases.take 6
      if s.mode = js "idle" then
        let mode := classifyIssue userText topKP
        let issue := jsOr s.ticket.issue (userText.take 180)
        let symptoms :=
          if topKP ≠ [] then uniqPush s.ticket.symptoms (kwLine topKP)
          else s.ticket.symptoms
        ({ mode := mode
           step := 0
           ticket := { s.ticket with issue := issue, symptoms := symptoms } },
         piiPre ++ tonePrefix2Fn analysis.sentiment ++ js "\n\n" ++ flowIntro2 mode)
      else
        let symptoms1 :=
          if topKP ≠ [] then uniqPush s.ticket.symptoms (kwLine topKP)
          else s.ticket.symptoms
        let s1 := { s with ticket := { s.ticket with symptoms := symptoms1 } }
        if s1.mode = js "triage" ∧ s1.step = 0 then
          ({ s1 with
              step := 1
              ticket := { s1.ticket with issue := userText } },
           tonePrefix2Fn analysis.sentiment ++ js "\n\n1) What device? (Windows/Mac/phone + model)")
        else if s1.mode = js "triage" ∧ s1.step = 1 then
          ({ s1 with
              step := 2
              ticket := { s1.ticket with device := userText } },
           js "2) What OS + version? (Windows 11 / macOS / iOS / Android)")
        else if s1.mode = js "triage" ∧ s1.step = 2 then
          ({ s1 with
              step := 3
              ticket := { s1.ticket with os := userText } },
           js "3) Paste the exact error text (redacted). If none, describe what happens.")
        else if s1.mode = js "triage" ∧ s1.step = 3 then
          let errors := uniqPush s1.ticket.errors userText
          let mode := classifyIssue (jsOr s1.ticket.issue (js "") ++ js " " ++ userText) topKP
          ({ s1 with
              mode := mode
              step := 0
              ticket := { s1.ticket with errors := errors } },
           js "Got it. Switching to: " ++ mode ++ js "\n\n" ++ flowIntro2 mode)
        else if s1.mode = js "network" ∧ s1.step = 0 then
          ({ s1 with step := 1 }, js "1) Are you on Wi-Fi or Ethernet?")
        else if s1.mode = js "network" ∧ s1.step = 1 then
          ({ s1 with
              step := 2
              ticket := { s1.ticket with
                symptoms := uniqPush s1.ticket.symptoms (js "connection: " ++ userText) } },
           js "2) Can you open ANY website? (yes/no)\n3) Does it fail on ALL sites or only one?")
        else if s1.mode = js "network" ∧ s1.step = 2 then
          ({ s1 with
              step := 3
              ticket := { s1.ticket with
                symptoms := uniqPush s1.ticket.symptoms (js "basic check: " ++ userText) } },
           js "Run ONE command (Windows) and paste output:\n1) ipconfig /all\n2) ping 8.8.8.8 -n 4\n3) nslookup google.com")
        else if s1.mode = js "network" ∧ s1.step = 3 then
          ({ s1 with
              step := 4
              ticket := { s1.ticket with
                whatTried := uniqPush s1.ticket.whatTried (js "network diagnostics provided")
                errors := uniqPush s1.ticket.errors (js "network output: " ++ userText.take 220) } },
           js "Thanks.\n\n1) Only this device, or multiple devices on the same network?\n2) If you can, test a phone hotspot to isolate the network.\n\nType `summary` anytime.")
        else if s1.mode = js "windows" then
          (s1, js "Windows mode - answer these:\n1) Windows 10 or 11?\n2) What changed recently?\n3) Any exact error/stop code?\n\nType `summary` anytime.")
        else if s1.mode = js "account" then
          (s1, js "Account mode - answer these:\n1) Microsoft login / School SSO / App login?\n2) What exactly happens?\n3) Error text (redacted)?\n\nType `summary` anytime.")
        else if s1.mode = js "app" then
          (s1, js "App mode - answer these:\n1) App name + version\n2) Exact error message (redacted)\n3) What you already tried\n\nType `summary` anytime.")
        else
          (s1, js "I am here. Type `start` to begin, or `help` for commands.")

/-! ### Definitions supporting the claim statements -/

/-- The classification algorithm as claim C1 words it (written from the
claim, for comparison with `classifyIssue`): the four rule groups are
evaluated in order; a group matches when one of its keywords is contained as
a substring in the lower-cased text or in one of the lower-cased key
phrases; the first matching group's label is returned, `triage` otherwise. -/
def classifySpecClaim (text : JStr) (keyPhrases : List JStr) : JStr :=
  let t := lower text
  let kp := keyPhrases.map lower
  let grpMatch : List JStr → Bool := fun ws =>
    ws.any (fun w => includes t w || kp.any (fun k => includes k w))
  if grpMatch networkWords then js "network"
  else if grpMatch windowsWords then js "windows"
  else if grpMatch accountWords then js "account"
  else if grpMatch appWords then js "app"
  else js "triage"

/-- The classification rule as the code implements it (the amended claim C1):
groups in order network, windows, account, app, each matching by substring
containment of a keyword in the lower-cased text; the network group
additionally matches when some lower-cased key phrase is exactly equal to one
of its key-phrase keywords; no other group consults the key phrases; default
`triage`. -/
def classifySpecAmended (text : JStr) (keyPhrases : List JStr) : JStr :=
  let t := lower text
  let kp := keyPhrases.map lower
  if networkWords.any (fun w => includes t w) || kp.any (fun x => x ∈ networkKPWords) then
    js "network"
  else if windowsWords.any (fun w => includes t w) then js "windows"
  else if accountWords.any (fun w => includes t w) then js "account"
  else if appWords.any (fun w => includes t w) then js "app"
  else js "triage"

/-- The five labels `classifyIssue` can return. -/
def categoryLabels : List JStr :=
  [js "network", js "windows", js "account", js "app", js "triage"]

/-- The conditions under which a turn of the first-revision router reaches the
guided-flow logic: non-empty trimmed text, none of the four exact commands, no
valid `mode <name>` command, and an analysis result (the call did not throw). -/
def ReachesFlows (rawText : JStr) (a : Option AnalysisResult) : Prop :=
  safeTrim rawText ≠ []
  ∧ lower (safeTrim rawText) ≠ js "help"
  ∧ lower (safeTrim rawText) ≠ js "reset"
  ∧ lower (safeTrim rawText) ≠ js "start"
  ∧ lower (safeTrim rawText) ≠ js "summary"
  ∧ parseModeCommand (safeTrim rawText) = none
  ∧ a ≠ none

/-- The mode values the routers ever assign, and the step bound: the dialog
state-machine invariant of claim C9. -/
def validModes : List JStr :=
  [js "idle", js "triage", js "network", js "windows", js "account", js "app"]

def GoodState (s : Session) : Prop := s.mode ∈ validModes ∧ s.step ≤ 4

/-- An analysis result with every sub-analysis absent, used as a concrete
input in counterexamples and witnesses. -/
def emptyAnalysis : AnalysisResult :=
  { sentiment := none, keyphrases := none, language := none, pii := none,
    rawErrors := { sentiment := none, keyphrases := none, language := none, pii := none } }

/-- A session sitting at triage step 0 with a non-empty captured issue;
reachable, e.g. by an idle free-text turn followed by the `start` command. -/
def sessionC2 : Session :=
  { mode := js "triage", step := 0,
    ticket := { emptyTicket with issue := js "old wifi issue" } }

/-! ### Facts about the string model: `lower` is idempotent -/

theorem char_toNat_ofNat_valid (n : Nat) (h : n.isValidChar) :
    (Char.ofNat n).toNat = n := by
  rw [Char.ofNat, dif_pos h]
  simp [Char.ofNatAux, Char.toNat, UInt32.toNat, BitVec.toNat_ofNatLt]

theorem char_toLower_toLower (c : Char) : c.toLower.toLower = c.toLower := by
  unfold Char.toLower
  by_cases h : c.toNat ≥ 65 ∧ c.toNat ≤ 90
  · rw [if_pos h]
    have hv : (c.toNat + 32).isValidChar := Or.inl (by omega)
    have ht : (Char.ofNat (c.toNat + 32)).toNat = c.toNat + 32 :=
      char_toNat_ofNat_valid _ hv
    rw [if_neg (by omega)]
  · rw [if_neg h, if_neg h]

theorem char_isWhitespace_iff (c : Char) :
    c.isWhitespace = true ↔ (c.toNat = 32 ∨ c.toNat = 9 ∨ c.toNat = 13 ∨ c.toNat = 10) := by
  have hinj : ∀ d : Char, c = d ↔ c.toNat = d.toNat := by
    intro d
    constructor
    · intro h; rw [h]
    · intro h
      apply Char.ext
      exact UInt32.toNat.inj h
  simp only [Char.isWhitespace, Bool.or_eq_true, decide_eq_true_eq]
  rw [hinj ' ', hinj '\t', hinj '\r', hinj '\n']
  simp only [show (' '.toNat) = 32 from rfl, show ('\t'.toNat) = 9 from rfl,
    show ('\r'.toNat) = 13 from rfl, show ('\n'.toNat) = 10 from rfl]
  tauto

theorem char_isWhitespace_toLower (c : Char) :
    c.toLower.isWhitespace = c.isWhitespace := by
  unfold Char.toLower
  by_cases h : c.toNat ≥ 65 ∧ c.toNat ≤ 90
  · rw [if_pos h]
    have hv : (c.toNat + 32).isValidChar := Or.inl (by omega)
    have ht : (Char.ofNat (c.toNat + 32)).toNat = c.toNat + 32 :=
      char_toNat_ofNat_valid _ hv
    have h1 : (Char.ofNat (c.toNat + 32)).isWhitespace = false := by
      rw [Bool.eq_false_iff, Ne, char_isWhitespace_iff, ht]
      omega
    have h2 : c.isWhitespace = false := by
      rw [Bool.eq_false_iff, Ne, char_isWhitespace_iff]
      omega
    rw [h1, h2]
  · rw [if_neg h]

theorem jsToLower_jsToLower (s : JStr) : jsToLower (jsToLower s) = jsToLower s := by
  simp only [jsToLower, List.map_map]
  apply List.map_congr_left
  intro c _
  exact char_toLower_toLower c

theorem jsTrim_jsToLower_comm (s : JStr) :
    jsTrim (jsToLower s) = jsToLower (jsTrim s) := by
  have hp : (Char.isWhitespace ∘ Char.toLower) = Char.isWhitespace := by
    funext c
    exact char_isWhitespace_toLower c
  simp only [jsTrim, jsToLower, List.rdropWhile, List.dropWhile_map, hp,
    ← List.map_reverse, List.dropWhile_map, hp]

theorem jsTrim_head_not_ws (s : JStr) :
    List.dropWhile Char.isWhitespace (jsTrim s) = jsTrim s := by
  have key : ∀ (l : JStr), (∀ c : Char, l.head? = some c → c.isWhitespace = false) →
      List.dropWhile Char.isWhitespace l = l := by
    intro l h
    cases l with
    | nil => rfl
    | cons a t =>
      rw [List.dropWhile_cons, h a rfl]
      simp
  apply key
  intro c hc
  obtain ⟨u, hu⟩ :
      (jsTrim s) <+: List.dropWhile Char.isWhitespace s :=
    List.rdropWhile_prefix _ _
  have hh : (List.dropWhile Char.isWhitespace s).head? = some c := by
    rw [← hu]
    cases hj : jsTrim s with
    | nil => rw [hj] at hc; simp at hc
    | cons a t =>
      rw [hj] at hc
      simp only [List.head?_cons, Option.some.injEq] at hc
      simp [hc]
  have hw := List.head?_dropWhile_not Char.isWhitespace s
  rw [hh] at hw
  exact hw

theorem jsTrim_jsTrim (s : JStr) : jsTrim (jsTrim s) = jsTrim s := by
  conv_lhs => rw [jsTrim, jsTrim_head_not_ws]
  rw [jsTrim]
  exact List.rdropWhile_idempotent _ _

theorem lower_idem (s : JStr) : lower (lower s) = lower s := by
  simp only [lower, safeTrim, jsTrim_jsToLower_comm, jsTrim_jsTrim,
    jsToLower_jsToLower]

/-! ### Helper lemmas -/

theorem jsOr_of_ne {v : JStr} (f : JStr) (h : v ≠ []) : jsOr v f = v := by
  simp [jsOr, h]

theorem classifyIssue_mem5 (text : JStr) (keyPhrases : List JStr) :
    classifyIssue text keyPhrases ∈ categoryLabels := by
  simp only [classifyIssue, categoryLabels]
  split_ifs <;> simp

theorem mem5_valid : ∀ x ∈ categoryLabels, x ∈ validModes := by decide

/-! ### Claim C4 -/

/-- C4: `classifyIssue` is total: for every input text (including the empty
string) and every key-phrase list it returns exactly one of the five category
labels network, windows, account, app, triage. -/
theorem classifyIssue_total (text : JStr) (keyPhrases : List JStr) :
    classifyIssue text keyPhrases ∈ categoryLabels :=
  classifyIssue_mem5 text keyPhrases

/-! ### Claim C1 -/

/-- C1 counterexample: the claim says every rule group matches by substring
containment against the lower-cased key phrases as well as the text.  On the
input with empty text and single key phrase "my password" that reading yields
`account` (keyword "password" is a substring of the key phrase), but
`classifyIssue` returns `triage`: only the network group consults key
phrases, and only by exact equality. -/
theorem classifyIssue_claim_cex :
    classifyIssue (js "") [js "my password"] = js "triage"
    ∧ classifySpecClaim (js "") [js "my password"] = js "account"
    ∧ classifyIssue (js "") [js "my password"]
        ≠ classifySpecClaim (js "") [js "my password"] := by
  refine ⟨by decide, by decide, by decide⟩

/-- C1 (amended): `classifyIssue` evaluates the four rule groups in the fixed
order network, windows, account, app against the lower-cased text by substring
containment; the network group additionally matches a lower-cased key phrase
exactly equal to one of its key-phrase keywords, and the other groups ignore
key phrases; the first matching group wins (so "wifi password reset"
classifies as network) and `triage` is returned when no group matches. -/
theorem classifyIssue_eq_amended :
    (∀ (text : JStr) (keyPhrases : List JStr),
      classifyIssue text keyPhrases = classifySpecAmended text keyPhrases)
    ∧ classifyIssue (js "wifi password reset") [] = js "network" := by
  constructor
  · intro text kps
    simp only [classifyIssue, classifySpecAmended, containsAny, lower_idem]
  · decide

/-! ### Claim C5 -/

/-- C5: `uniqPush` deduplicates against exact repeats (pushing a value already
present leaves the sequence unchanged), is idempotent, and only ever appends
at the end - it never removes or reorders existing entries. -/
theorem uniqPush_spec (arr : List JStr) (v : JStr) :
    (v ∈ arr → uniqPush arr v = arr)
    ∧ uniqPush (uniqPush arr v) v = uniqPush arr v
    ∧ (uniqPush arr v = arr ∨ uniqPush arr v = arr ++ [v]) := by
  unfold uniqPush
  by_cases h0 : v = []
  · simp [h0]
  · by_cases h1 : v ∈ arr
    · simp [h0, h1]
    · simp [h0, h1]

/-- C5 witness: concrete instances of the dedup and idempotence parts,
obtained from `uniqPush_spec`. -/
theorem uniqPush_spec_witness :
    uniqPush [js "keywords: wifi"] (js "keywords: wifi") = [js "keywords: wifi"]
    ∧ uniqPush (uniqPush [] (js "keywords: wifi")) (js "keywords: wifi")
        = uniqPush [] (js "keywords: wifi") :=
  ⟨(uniqPush_spec [js "keywords: wifi"] (js "keywords: wifi")).1 (by decide),
   (uniqPush_spec [] (js "keywords: wifi")).2.1⟩

/-! ### Claim C3 -/

/-- C3: from any (mode, step) state and any ticket contents, the `reset`
command yields exactly mode=idle, step=0, and a fresh empty ticket. -/
theorem reset_resets (s : Session) (a : Option AnalysisResult) :
    (processMessage s (js "reset") a).1
      = { mode := js "idle", step := 0, ticket := emptyTicket } := rfl

/-! ### Claim C6 -/

/-- C6: the `help` and `summary` commands leave mode, step, and every ticket
field unchanged; only a canned reply (respectively the formatted ticket
summary) is produced. -/
theorem help_summary_frame (s : Session) (a : Option AnalysisResult) :
    (processMessage s (js "help") a).1 = s
    ∧ (processMessage s (js "help") a).2 = [helpText]
    ∧ (processMessage s (js "summary") a).1 = s
    ∧ (processMessage s (js "summary") a).2
        = [js "Here is your ticket summary:",
           js "```text\n" ++ ticketSummary s.ticket ++ js "\n```"] :=
  ⟨rfl, rfl, rfl, rfl⟩

/-! ### Claim C7 -/

/-- C7: when the analysis call throws on a non-command, non-empty message,
the turn produces exactly one generic apology reply and the session state
(mode, step, ticket) is exactly what it was before the turn. -/
theorem analysisFailure_atomic (s : Session) (rawText : JStr)
    (h0 : safeTrim rawText ≠ [])
    (h1 : lower (safeTrim rawText) ≠ js "help")
    (h2 : lower (safeTrim rawText) ≠ js "reset")
    (h3 : lower (safeTrim rawText) ≠ js "start")
    (h4 : lower (safeTrim rawText) ≠ js "summary")
    (h5 : parseModeCommand (safeTrim rawText) = none) :
    processMessage s rawText none = (s, [azureApology]) := by
  simp only [processMessage, if_neg h0, if_neg h1, if_neg h2, if_neg h3,
    if_neg h4, h5]

/-- C7 witness: a concrete free-text turn with a throwing analysis call. -/
theorem analysisFailure_atomic_witness :
    processMessage sessionC2 (js "my wifi keeps dropping") none
      = (sessionC2, [azureApology]) :=
  analysisFailure_atomic sessionC2 (js "my wifi keeps dropping")
    (by decide) (by decide) (by decide) (by decide) (by decide) (by decide)

/-! ### Claim C10 -/

/-- C10: a message starting with "mode " whose remainder is not one of the
five mode names - here "mode foo" - is not treated as a command:
`parseModeCommand` returns none for it and the turn proceeds through the
normal analysis-and-state-machine path (`analysisPath`) like any free text,
with no error reply. -/
theorem modeFoo_not_command :
    parseModeCommand (js "mode foo") = none
    ∧ ∀ (s : Session) (an : AnalysisResult),
        processMessage s (js "mode foo") (some an)
          = analysisPath s (js "mode foo") an :=
  ⟨rfl, fun _ _ => rfl⟩

/-! ### Claim C2 -/

theorem guidedFlows_issue (s : Session) (u : JStr) (kp : List JStr)
    (sd : Option SentimentDoc)
    (hne : s.ticket.issue ≠ [])
    (h : ¬(s.mode = js "triage" ∧ s.step = 0)) :
    ((guidedFlows s u kp sd).1).ticket.issue = s.ticket.issue := by
  unfold guidedFlows
  by_cases c1 : s.mode = js "triage" ∧ s.step = 0
  · exact absurd c1 h
  rw [if_neg c1]
  by_cases c2 : s.mode = js "triage" ∧ s.step = 1
  · rw [if_pos c2]
  rw [if_neg c2]
  by_cases c3 : s.mode = js "triage" ∧ s.step = 2
  · rw [if_pos c3]
  rw [if_neg c3]
  by_cases c4 : s.mode = js "triage" ∧ s.step = 3
  · rw [if_pos c4]
  rw [if_neg c4]
  by_cases c5 : s.mode = js "network" ∧ s.step = 0
  · rw [if_pos c5]
    exact jsOr_of_ne u hne
  rw [if_neg c5]
  by_cases c6 : s.mode = js "network" ∧ s.step = 1
  · rw [if_pos c6]
  rw [if_neg c6]
  by_cases c7 : s.mode = js "network" ∧ s.step = 2
  · rw [if_pos c7]
  rw [if_neg c7]
  by_cases c8 : s.mode = js "network" ∧ s.step = 3
  · rw [if_pos c8]
  rw [if_neg c8]
  by_cases c9 : s.mode = js "network"
  · rw [if_pos c9]
  rw [if_neg c9]
  by_cases c10 : s.mode = js "windows" ∧ s.step = 0
  · rw [if_pos c10]
    exact jsOr_of_ne u hne
  rw [if_neg c10]
  by_cases c11 : s.mode = js "windows" ∧ s.step = 1
  · rw [if_pos c11]
  rw [if_neg c11]
  by_cases c12 : s.mode = js "windows" ∧ s.step = 2
  · rw [if_pos c12]
  rw [if_neg c12]
  by_cases c13 : s.mode = js "windows"
  · rw [if_pos c13]
  rw [if_neg c13]
  by_cases c14 : s.mode = js "account" ∧ s.step = 0
  · rw [if_pos c14]
    exact jsOr_of_ne u hne
  rw [if_neg c14]
  by_cases c15 : s.mode = js "account" ∧ s.step = 1
  · rw [if_pos c15]
  rw [if_neg c15]
  by_cases c16 : s.mode = js "account" ∧ s.step = 2
  · rw [if_pos c16]
  rw [if_neg c16]
  by_cases c17 : s.mode = js "account" ∧ s.step = 3
  · rw [if_pos c17]
  rw [if_neg c17]
  by_cases c18 : s.mode = js "app" ∧ s.step = 0
  · rw [if_pos c18]
    exact jsOr_of_ne u hne
  rw [if_neg c18]
  by_cases c19 : s.mode = js "app" ∧ s.step = 1
  · rw [if_pos c19]
  rw [if_neg c19]
  by_cases c20 : s.mode = js "app" ∧ s.step = 2
  · rw [if_pos c20]
  rw [if_neg c20]
  by_cases c21 : s.mode = js "app" ∧ s.step = 3
  · rw [if_pos c21]
  rw [if_neg c21]
  by_cases c22 : s.mode = js "app"
  · rw [if_pos c22]
  rw [if_neg c22]

theorem analysisPath_issue (s : Session) (u : JStr) (an : AnalysisResult)
    (hne : s.ticket.issue ≠ [])
    (h : ¬(s.mode = js "triage" ∧ s.step = 0)) :
    ((analysisPath s u an).1).ticket.issue = s.ticket.issue := by
  unfold analysisPath
  by_cases hidle : s.mode = js "idle"
  · simp [hidle, jsOr, hne]
  · simp only [if_neg hidle]
    exact guidedFlows_issue _ u _ an.sentiment hne h

/-- C2 counterexample: a session at (triage, 0) whose ticket.issue is the
non-empty string "old wifi issue" is reachable (idle free-text turn, then
`start`), yet the non-reset free-text message "hello there" overwrites the
issue field with itself. -/
theorem issue_overwritten_cex :
    sessionC2.ticket.issue = js "old wifi issue"
    ∧ lower (safeTrim (js "hello there")) ≠ js "reset"
    ∧ ((processMessage sessionC2 (js "hello there") (some emptyAnalysis)).1).ticket.issue
        = js "hello there"
    ∧ js "hello there" ≠ js "old wifi issue" := by
  refine ⟨rfl, by decide, rfl, by decide⟩

/-- C2 (amended): once ticket.issue is non-empty, processing any non-reset
message leaves it unchanged in the idle entry path and in every guided-flow
step except triage step 0, which unconditionally overwrites it; i.e. the
set-once property holds for every turn that does not reach the triage step-0
handler. -/
theorem issue_set_once (s : Session) (rawText : JStr) (a : Option AnalysisResult)
    (hne : s.ticket.issue ≠ [])
    (hreset : lower (safeTrim rawText) ≠ js "reset")
    (htriage : ¬(s.mode = js "triage" ∧ s.step = 0 ∧ ReachesFlows rawText a)) :
    ((processMessage s rawText a).1).ticket.issue = s.ticket.issue := by
  unfold processMessage
  by_cases h0 : safeTrim rawText = []
  · simp [h0]
  · simp only [if_neg h0]
    by_cases h1 : lower (safeTrim rawText) = js "help"
    · simp [h1]
    · simp only [if_neg h1]
      simp only [if_neg hreset]
      by_cases h3 : lower (safeTrim rawText) = js "start"
      · simp [h3]
      · simp only [if_neg h3]
        by_cases h4 : lower (safeTrim rawText) = js "summary"
        · simp [h4]
        · simp only [if_neg h4]
          cases hm : parseModeCommand (safeTrim rawText) with
          | some m => simp [hm]
          | none =>
            cases a with
            | none => simp [hm]
            | some an =>
              simp only [hm]
              apply analysisPath_issue _ _ _ hne
              intro hcon
              exact htriage ⟨hcon.1, hcon.2,
                h0, h1, hreset, h3, h4, hm, by simp⟩

/-- C2 witness for the amended theorem: a non-triage-step-0 session with a
non-empty issue keeps its issue across a free-text turn. -/
theorem issue_set_once_witness :
    (((processMessage
        { mode := js "network", step := 1,
          ticket := { emptyTicket with issue := js "old wifi issue" } }
        (js "hello there") (some emptyAnalysis)).1)).ticket.issue
      = js "old wifi issue" :=
  issue_set_once
    { mode := js "network", step := 1,
      ticket := { emptyTicket with issue := js "old wifi issue" } }
    (js "hello there") (some emptyAnalysis)
    (by decide) (by decide)
    (by intro hc; exact absurd hc.1 (by decide))

/-! ### Claim C8 -/

/-- C8: each of the four sub-analyses is independently optional: a failed
task's field is `none`, a succeeded task's field is that task's first
document, and one task's outcome never affects the other three fields.
`Promise.allSettled` delivers all four outcomes without rejecting, so per-task
failures are absorbed here and never raised to the caller. -/
theorem analyzeLanguage_independent
    (a : Except JStr (List SentimentDoc)) (b : Except JStr (List KeyPhraseDoc))
    (c : Except JStr (List LanguageDoc)) (d : Except JStr (List PiiDoc)) :
    ((∀ e, a = .error e → (analyzeLanguage a b c d).sentiment = none)
     ∧ (∀ v, a = .ok v → (analyzeLanguage a b c d).sentiment = v.head?))
    ∧ ((∀ e, b = .error e → (analyzeLanguage a b c d).keyphrases = none)
     ∧ (∀ v, b = .ok v → (analyzeLanguage a b c d).keyphrases = v.head?))
    ∧ ((∀ e, c = .error e → (analyzeLanguage a b c d).language = none)
     ∧ (∀ v, c = .ok v → (analyzeLanguage a b c d).language = v.head?))
    ∧ ((∀ e, d = .error e → (analyzeLanguage a b c d).pii = none)
     ∧ (∀ v, d = .ok v → (analyzeLanguage a b c d).pii = v.head?))
    ∧ (∀ a', (analyzeLanguage a' b c d).keyphrases = (analyzeLanguage a b c d).keyphrases
        ∧ (analyzeLanguage a' b c d).language = (analyzeLanguage a b c d).language
        ∧ (analyzeLanguage a' b c d).pii = (analyzeLanguage a b c d).pii)
    ∧ (∀ b', (analyzeLanguage a b' c d).sentiment = (analyzeLanguage a b c d).sentiment
        ∧ (analyzeLanguage a b' c d).language = (analyzeLanguage a b c d).language
        ∧ (analyzeLanguage a b' c d).pii = (analyzeLanguage a b c d).pii)
    ∧ (∀ c', (analyzeLanguage a b c' d).sentiment = (analyzeLanguage a b c d).sentiment
        ∧ (analyzeLanguage a b c' d).keyphrases = (analyzeLanguage a b c d).keyphrases
        ∧ (analyzeLanguage a b c' d).pii = (analyzeLanguage a b c d).pii)
    ∧ (∀ d', (analyzeLanguage a b c d').sentiment = (analyzeLanguage a b c d).sentiment
        ∧ (analyzeLanguage a b c d').keyphrases = (analyzeLanguage a b c d).keyphrases
        ∧ (analyzeLanguage a b c d').language = (analyzeLanguage a b c d).language) := by
  refine ⟨⟨?_, ?_⟩, ⟨?_, ?_⟩, ⟨?_, ?_⟩, ⟨?_, ?_⟩, ?_, ?_, ?_, ?_⟩ <;>
    intros <;> subst_eqs <;> first | rfl | exact ⟨rfl, rfl, rfl⟩

/-- C8 witness: with the sentiment and PII tasks rejected and the other two
fulfilled, the result has `none` exactly in the failed slots and the
fulfilled documents in the others. -/
theorem analyzeLanguage_independent_witness :
    (analyzeLanguage (.error (js "boom"))
        (.ok [{ keyPhrases := [js "wifi"] }])
        (.ok [{ primaryLanguage := some { iso6391Name := js "en" } }])
        (.error (js "x"))).sentiment = none
    ∧ (analyzeLanguage (.error (js "boom"))
        (.ok [{ keyPhrases := [js "wifi"] }])
        (.ok [{ primaryLanguage := some { iso6391Name := js "en" } }])
        (.error (js "x"))).keyphrases = some { keyPhrases := [js "wifi"] } :=
  ⟨(analyzeLanguage_independent _ _ _ _).1.1 (js "boom") rfl,
   (analyzeLanguage_independent (.error (js "boom"))
      (.ok [{ keyPhrases := [js "wifi"] }])
      (.ok [{ primaryLanguage := some { iso6391Name := js "en" } }])
      (.error (js "x"))).2.1.2 [{ keyPhrases := [js "wifi"] }] rfl⟩

/-! ### Claim C9 -/

theorem modeNames_valid : ∀ x ∈ modeNames, x ∈ validModes := by decide

theorem parseModeCommand_mem (t m : JStr) (h : parseModeCommand t = some m) :
    m ∈ modeNames := by
  simp only [parseModeCommand] at h
  by_cases hp : (js "mode ").isPrefixOf (lower t)
  · rw [if_pos hp] at h
    by_cases hm : jsTrim ((lower t).drop 5) ∈ modeNames
    · rw [if_pos hm] at h
      injection h with h'
      rw [← h']
      exact hm
    · rw [if_neg hm] at h
      cases h
  · rw [if_neg hp] at h
    cases h

theorem idle_valid : js "idle" ∈ validModes := by decide

theorem triage_valid : js "triage" ∈ validModes := by decide

theorem network_valid : js "network" ∈ validModes := by decide

theorem windows_valid : js "windows" ∈ validModes := by decide

theorem account_valid : js "account" ∈ validModes := by decide

theorem app_valid : js "app" ∈ validModes := by decide

theorem one_le_four : (1 : Nat) ≤ 4 := by decide

theorem two_le_four : (2 : Nat) ≤ 4 := by decide

theorem three_le_four : (3 : Nat) ≤ 4 := by decide

theorem four_le_four : (4 : Nat) ≤ 4 := by decide

theorem guidedFlows_good (s : Session) (u : JStr) (kp : List JStr)
    (sd : Option SentimentDoc) (h : GoodState s) :
    GoodState ((guidedFlows s u kp sd).1) := by
  unfold guidedFlows
  by_cases c1 : s.mode = js "triage" ∧ s.step = 0
  · rw [if_pos c1, c1.1]; exact ⟨triage_valid, one_le_four⟩
  rw [if_neg c1]
  by_cases c2 : s.mode = js "triage" ∧ s.step = 1
  · rw [if_pos c2, c2.1]; exact ⟨triage_valid, two_le_four⟩
  rw [if_neg c2]
  by_cases c3 : s.mode = js "triage" ∧ s.step = 2
  · rw [if_pos c3, c3.1]; exact ⟨triage_valid, three_le_four⟩
  rw [if_neg c3]
  by_cases c4 : s.mode = js "triage" ∧ s.step = 3
  · rw [if_pos c4]; exact ⟨mem5_valid _ (classifyIssue_mem5 _ _), Nat.zero_le _⟩
  rw [if_neg c4]
  by_cases c5 : s.mode = js "network" ∧ s.step = 0
  · rw [if_pos c5, c5.1]; exact ⟨network_valid, one_le_four⟩
  rw [if_neg c5]
  by_cases c6 : s.mode = js "network" ∧ s.step = 1
  · rw [if_pos c6, c6.1]; exact ⟨network_valid, two_le_four⟩
  rw [if_neg c6]
  by_cases c7 : s.mode = js "network" ∧ s.step = 2
  · rw [if_pos c7, c7.1]; exact ⟨network_valid, three_le_four⟩
  rw [if_neg c7]
  by_cases c8 : s.mode = js "network" ∧ s.step = 3
  · rw [if_pos c8, c8.1]; exact ⟨network_valid, four_le_four⟩
  rw [if_neg c8]
  by_cases c9 : s.mode = js "network"
  · rw [if_pos c9]; exact h
  rw [if_neg c9]
  by_cases c10 : s.mode = js "windows" ∧ s.step = 0
  · rw [if_pos c10, c10.1]; exact ⟨windows_valid, one_le_four⟩
  rw [if_neg c10]
  by_cases c11 : s.mode = js "windows" ∧ s.step = 1
  · rw [if_pos c11, c11.1]; exact ⟨windows_valid, two_le_four⟩
  rw [if_neg c11]
  by_cases c12 : s.mode = js "windows" ∧ s.step = 2
  · rw [if_pos c12, c12.1]; exact ⟨windows_valid, three_le_four⟩
  rw [if_neg c12]
  by_cases c13 : s.mode = js "windows"
  · rw [if_pos c13]; exact h
  rw [if_neg c13]
  by_cases c14 : s.mode = js "account" ∧ s.step = 0
  · rw [if_pos c14, c14.1]; exact ⟨account_valid, one_le_four⟩
  rw [if_neg c14]
  by_cases c15 : s.mode = js "account" ∧ s.step = 1
  · rw [if_pos c15, c15.1]; exact ⟨account_valid, two_le_four⟩
  rw [if_neg c15]
  by_cases c16 : s.mode = js "account" ∧ s.step = 2
  · rw [if_pos c16, c16.1]; exact ⟨account_valid, three_le_four⟩
  rw [if_neg c16]
  by_cases c17 : s.mode = js "account" ∧ s.step = 3
  · rw [if_pos c17, c17.1]; exact ⟨account_valid, h.2⟩
  rw [if_neg c17]
  by_cases c18 : s.mode = js "app" ∧ s.step = 0
  · rw [if_pos c18, c18.1]; exact ⟨app_valid, one_le_four⟩
  rw [if_neg c18]
  by_cases c19 : s.mode = js "app" ∧ s.step = 1
  · rw [if_pos c19, c19.1]; exact ⟨app_valid, two_le_four⟩
  rw [if_neg c19]
  by_cases c20 : s.mode = js "app" ∧ s.step = 2
  · rw [if_pos c20, c20.1]; exact ⟨app_valid, three_le_four⟩
  rw [if_neg c20]
  by_cases c21 : s.mode = js "app" ∧ s.step = 3
  · rw [if_pos c21, c21.1]; exact ⟨app_valid, four_le_four⟩
  rw [if_neg c21]
  by_cases c22 : s.mode = js "app"
  · rw [if_pos c22]; exact h
  rw [if_neg c22]
  exact h

theorem analysisPath_good (s : Session) (u : JStr) (an : AnalysisResult)
    (h : GoodState s) : GoodState ((analysisPath s u an).1) := by
  unfold analysisPath
  by_cases hidle : s.mode = js "idle"
  · rw [if_pos hidle]
    exact ⟨mem5_valid _ (classifyIssue_mem5 _ _), Nat.zero_le _⟩
  · rw [if_neg hidle]
    exact guidedFlows_good _ _ _ _ ⟨h.1, h.2⟩

theorem processMessage_good (s : Session) (raw : JStr)
    (a : Option AnalysisResult) (h : GoodState s) :
    GoodState ((processMessage s raw a).1) := by
  unfold processMessage
  by_cases h0 : safeTrim raw = []
  · rw [if_pos h0]; exact h
  rw [if_neg h0]
  by_cases h1 : lower (safeTrim raw) = js "help"
  · rw [if_pos h1]; exact h
  rw [if_neg h1]
  by_cases h2 : lower (safeTrim raw) = js "reset"
  · rw [if_pos h2]; exact ⟨idle_valid, Nat.zero_le _⟩
  rw [if_neg h2]
  by_cases h3 : lower (safeTrim raw) = js "start"
  · rw [if_pos h3]; exact ⟨triage_valid, Nat.zero_le _⟩
  rw [if_neg h3]
  by_cases h4 : lower (safeTrim raw) = js "summary"
  · rw [if_pos h4]; exact h
  rw [if_neg h4]
  cases hm : parseModeCommand (safeTrim raw) with
  | some m =>
    exact ⟨modeNames_valid m (parseModeCommand_mem _ m hm), Nat.zero_le _⟩
  | none =>
    cases a with
    | none => exact h
    | some an => exact analysisPath_good _ _ an h

theorem handleText_good (s : Session) (u : JStr) (an : AnalysisResult)
    (h : GoodState s) : GoodState ((handleText s u an).1) := by
  unfold handleText
  by_cases h1 : lower u = js "help"
  · rw [if_pos h1]; exact h
  rw [if_neg h1]
  by_cases h2 : lower u = js "reset"
  · rw [if_pos h2]; exact ⟨idle_valid, Nat.zero_le _⟩
  rw [if_neg h2]
  by_cases h3 : lower u = js "start"
  · rw [if_pos h3]; exact ⟨triage_valid, Nat.zero_le _⟩
  rw [if_neg h3]
  by_cases h4 : lower u = js "summary"
  · rw [if_pos h4]; exact h
  rw [if_neg h4]
  cases hm : parseModeCommand u with
  | some m =>
    exact ⟨modeNames_valid m (parseModeCommand_mem _ m hm), Nat.zero_le _⟩
  | none =>
    by_cases hidle : s.mode = js "idle"
    · rw [if_pos hidle]
      exact ⟨mem5_valid _ (classifyIssue_mem5 _ _), Nat.zero_le _⟩
    rw [if_neg hidle]
    by_cases c1 : s.mode = js "triage" ∧ s.step = 0
    · rw [if_pos c1, c1.1]; exact ⟨triage_valid, one_le_four⟩
    rw [if_neg c1]
    by_cases c2 : s.mode = js "triage" ∧ s.step = 1
    · rw [if_pos c2, c2.1]; exact ⟨triage_valid, two_le_four⟩
    rw [if_neg c2]
    by_cases c3 : s.mode = js "triage" ∧ s.step = 2
    · rw [if_pos c3, c3.1]; exact ⟨triage_valid, three_le_four⟩
    rw [if_neg c3]
    by_cases c4 : s.mode = js "triage" ∧ s.step = 3
    · rw [if_pos c4]; exact ⟨mem5_valid _ (classifyIssue_mem5 _ _), Nat.zero_le _⟩
    rw [if_neg c4]
    by_cases c5 : s.mode = js "network" ∧ s.step = 0
    · rw [if_pos c5, c5.1]; exact ⟨network_valid, one_le_four⟩
    rw [if_neg c5]
    by_cases c6 : s.mode = js "network" ∧ s.step = 1
    · rw [if_pos c6, c6.1]; exact ⟨network_valid, two_le_four⟩
    rw [if_neg c6]
    by_cases c7 : s.mode = js "network" ∧ s.step = 2
    · rw [if_pos c7, c7.1]; exact ⟨network_valid, three_le_four⟩
    rw [if_neg c7]
    by_cases c8 : s.mode = js "network" ∧ s.step = 3
    · rw [if_pos c8, c8.1]; exact ⟨network_valid, four_le_four⟩
    rw [if_neg c8]
    by_cases c9 : s.mode = js "windows"
    · rw [if_pos c9]; exact ⟨h.1, h.2⟩
    rw [if_neg c9]
    by_cases c10 : s.mode = js "account"
    · rw [if_pos c10]; exact ⟨h.1, h.2⟩
    rw [if_neg c10]
    by_cases c11 : s.mode = js "app"
    · rw [if_pos c11]; exact ⟨h.1, h.2⟩
    rw [if_neg c11]
    exact ⟨h.1, h.2⟩

theorem foldl_processMessage_good (msgs : List (JStr × Option AnalysisResult)) :
    ∀ s : Session, GoodState s →
      GoodState (msgs.foldl (fun st m => (processMessage st m.1 m.2).1) s) := by
  induction msgs with
  | nil => intro s h; exact h
  | cons m rest ih =>
    intro s h
    exact ih _ (processMessage_good s m.1 m.2 h)

theorem foldl_handleText_good (msgs : List (JStr × AnalysisResult)) :
    ∀ s : Session, GoodState s →
      GoodState (msgs.foldl (fun st m => (handleText st m.1 m.2).1) s) := by
  induction msgs with
  | nil => intro s h; exact h
  | cons m rest ih =>
    intro s h
    exact ih _ (handleText_good s m.1 m.2 h)

/-- C9: every session state reachable from the default (idle, 0) by any
sequence of processed messages - under either revision of the router - has a
mode among idle, triage, network, windows, account, app and a step between 0
and 4 (steps are naturals, so 0 <= step holds by type). -/
theorem router_state_invariant
    (msgs : List (JStr × Option AnalysisResult))
    (msgs2 : List (JStr × AnalysisResult)) :
    GoodState (msgs.foldl (fun st m => (processMessage st m.1 m.2).1) freshSession)
    ∧ GoodState (msgs2.foldl (fun st m => (handleText st m.1 m.2).1) freshSession) :=
  ⟨foldl_processMessage_good msgs freshSession ⟨by decide, by decide⟩,
   foldl_handleText_good msgs2 freshSession ⟨by decide, by decide⟩⟩
